import Mathlib

/-!
Shallow embedding of the `idgenerator` Go package (Twitter-Snowflake ID
generator).  Times are modelled at millisecond granularity as `Int`
(a Go `time.Time`'s `UnixMilli` value); machine integers are `Int`/`Nat`
(no overflow occurs on any reachable path, see the packing bounds proved
below).  The per-call mutex of the source guards state no other goroutine
can reach, so it has no observable effect and is not modelled.  The global
`math/rand` source is modelled as a function `rng : Nat -> Nat -> Nat`
taking the index of the draw within the call (0 = datacenter, 1 = machine,
2 = sequence) and the exclusive bound passed to `rand.Intn`; Go's
`rand.Intn n` (for `n > 0`) always returns a value in `[0, n)`, which
theorems assume as an explicit hypothesis where needed.
-/

/-- Bit widths, from the `const` block of the source. -/
def timestampBitRange : Nat := 41

def datacenterBitRange : Nat := 5

def machineBitRange : Nat := 5

def sequenceNumBitRange : Nat := 12

/-- `timestampBitShift = datacenterBitRange + machineBitRange + sequenceNumBitRange`. -/
def timestampBitShift : Nat := datacenterBitRange + machineBitRange + sequenceNumBitRange

/-- `datacenterBitShift = machineBitRange + sequenceNumBitRange`. -/
def datacenterBitShift : Nat := machineBitRange + sequenceNumBitRange

/-- `machineBitShift = sequenceNumBitRange`. -/
def machineBitShift : Nat := sequenceNumBitRange

/-- `defaultBaseTime = time.Date(2024, 1, 1, 0, 0, 0, 0, time.UTC)`, as UnixMilli. -/
def defaultBaseTime : Int := 1704067200000

/-- UnixMilli of the zero `time.Time` (January 1, year 1, 00:00:00 UTC);
`t.IsZero()` holds exactly for this instant. -/
def goZeroTimeUnixMilli : Int := -62135596800000

/-- The five sentinel error values of the source. -/
inductive GenError where
  | errOverLifeTime
  | errInvalidTimestamp
  | errInvalidDatacenterID
  | errInvalidMachineID
  | errInvalidSequenceNumber
deriving DecidableEq, Repr

/-- The `snowflake` struct.  The Go zero value has all integer fields 0,
`baseTime` the zero time and `random` false, which are the field defaults. -/
structure snowflake where
  timestamp : Int := 0
  datacenterID : Int := 0
  machineID : Int := 0
  sequenceNumber : Int := 0
  baseTime : Int := goZeroTimeUnixMilli
  random : Bool := false
deriving DecidableEq, Repr

/-- The Go `option` closures are unexported, so the only options a caller can
construct are the six exported `With*` constructors; they are defunctionalised
into this inductive, interpreted by `applyOption`. -/
inductive GenOption where
  | withTimestamp (v : Int)
  | withDatacenterID (v : Int)
  | withMachineID (v : Int)
  | withSequenceNumber (v : Int)
  | withBaseTime (v : Int)
  | withRandomEnabled
deriving DecidableEq, Repr

/-- `WithTimestamp` specifies the timestamp of the Snowflake ID
(the argument is the `time.Time`'s UnixMilli value). -/
def WithTimestamp (v : Int) : GenOption := .withTimestamp v

/-- `WithDatacenterID` specifies the datacenter ID of the Snowflake ID. -/
def WithDatacenterID (v : Int) : GenOption := .withDatacenterID v

/-- `WithMachineID` specifies the machine ID of the Snowflake ID. -/
def WithMachineID (v : Int) : GenOption := .withMachineID v

/-- `WithSequenceNumber` specifies the sequence number of the Snowflake ID. -/
def WithSequenceNumber (v : Int) : GenOption := .withSequenceNumber v

/-- `WithBaseTime` changes the Snowflake base time from the default
(the argument is the `time.Time`'s UnixMilli value). -/
def WithBaseTime (v : Int) : GenOption := .withBaseTime v

/-- `WithRandomEnabled` enables picking a random value for unset fields. -/
def WithRandomEnabled : GenOption := .withRandomEnabled

/-- Interpretation of one option closure on the call state.  The range checks
compare against `int(math.Pow(2, bits)) - 1`; `math.Pow(2, n)` is exact in
float64 for these exponents, so it is `2 ^ bits - 1`. -/
def applyOption : GenOption → snowflake → Except GenError snowflake
  | .withTimestamp v, s => .ok { s with timestamp := v }
  | .withDatacenterID v, s =>
      if v < 0 ∨ v > 2 ^ datacenterBitRange - 1 then .error .errInvalidDatacenterID
      else .ok { s with datacenterID := v }
  | .withMachineID v, s =>
      if v < 0 ∨ v > 2 ^ machineBitRange - 1 then .error .errInvalidMachineID
      else .ok { s with machineID := v }
  | .withSequenceNumber v, s =>
      if v < 0 ∨ v > 2 ^ sequenceNumBitRange - 1 then .error .errInvalidSequenceNumber
      else .ok { s with sequenceNumber := v }
  | .withBaseTime v, s => .ok { s with baseTime := v }
  | .withRandomEnabled, s => .ok { s with random := true }

/-- The option loop of `NewSnowflakeID`: options run in order, the first
error aborts. -/
def applyOptions : List GenOption → snowflake → Except GenError snowflake
  | [], s => .ok s
  | f :: fs, s =>
    match applyOption f s with
    | .error e => .error e
    | .ok s2 => applyOptions fs s2

/-- Maximum value of a Go `int64` / `time.Duration`. -/
def maxInt64 : Int := 9223372036854775807

/-- Minimum value of a Go `int64` / `time.Duration`. -/
def minInt64 : Int := -9223372036854775808

/-- `a.Sub(b)` on `time.Time` (both at millisecond granularity): the
nanosecond difference, saturated at the `time.Duration` bounds. -/
def timeSub (a b : Int) : Int :=
  let d := (a - b) * 1000000
  if d > maxInt64 then maxInt64 else if d < minInt64 then minInt64 else d

/-- `Duration.Milliseconds()`: `int64(d) / 1e6`, Go division truncating
toward zero. -/
def durationMilliseconds (d : Int) : Int := d.tdiv 1000000

/-- `getElapsedTimestamp`.  `now` is the value `time.Now().UTC()` would
observe, as UnixMilli. -/
def getElapsedTimestamp (now : Int) (s : snowflake) : Except GenError Int :=
  let atTime := if s.timestamp > 0 then s.timestamp else now
  let baseTime := if s.baseTime = goZeroTimeUnixMilli then defaultBaseTime else s.baseTime
  let diffMilli := durationMilliseconds (timeSub atTime baseTime)
  if diffMilli ≤ 0 then .error .errInvalidTimestamp
  else if diffMilli > 2 ^ timestampBitRange - 1 then .error .errOverLifeTime
  else .ok diffMilli

/-- The bound passed to `rand.Intn` for a field of `bits` bits: the source
writes `2 ^ bits - 1`, and Go's `^` is bitwise XOR (same precedence level as
binary `-`, applied left to right), so this is `(2 XOR bits) - 1`. -/
def randBound (bits : Nat) : Nat := Nat.xor 2 bits - 1

/-- First statement of the `if s.random` block:
`if s.datacenterID == 0 { s.datacenterID = rand.Intn(2 ^ datacenterBitRange - 1) }`. -/
def randomFillDatacenter (rng : Nat → Nat → Nat) (s : snowflake) : snowflake :=
  if s.datacenterID = 0 then
    { s with datacenterID := (rng 0 (randBound datacenterBitRange) : Int) } else s

/-- Second statement of the `if s.random` block:
`if s.machineID == 0 { s.machineID = rand.Intn(2 ^ machineBitRange - 1) }`. -/
def randomFillMachine (rng : Nat → Nat → Nat) (s : snowflake) : snowflake :=
  if s.machineID = 0 then
    { s with machineID := (rng 1 (randBound machineBitRange) : Int) } else s

/-- Third statement of the `if s.random` block:
`if s.sequenceNumber == 0 { s.sequenceNumber = rand.Intn(2 ^ sequenceNumBitRange - 1) }`. -/
def randomFillSequence (rng : Nat → Nat → Nat) (s : snowflake) : snowflake :=
  if s.sequenceNumber = 0 then
    { s with sequenceNumber := (rng 2 (randBound sequenceNumBitRange) : Int) } else s

/-- The `if s.random` block of `NewSnowflakeID`: each field still at zero is
filled from the next `rand.Intn` draw, in source order. -/
def randomFill (rng : Nat → Nat → Nat) (s : snowflake) : snowflake :=
  if s.random then randomFillSequence rng (randomFillMachine rng (randomFillDatacenter rng s))
  else s

/-- The final assembly
`s.timestamp<<timestampBitShift | int64(s.datacenterID)<<datacenterBitShift |
int64(s.machineID)<<machineBitShift | int64(s.sequenceNumber)`.
On every reachable state all four fields are nonnegative (the elapsed
timestamp is positive, explicit IDs are validated `≥ 0`, random fills are
`rand.Intn` results), so the Go `int64` shift/or agrees with the bitwise
operations on the natural numbers below. -/
def packID (s : snowflake) : Int :=
  (((s.timestamp.toNat <<< timestampBitShift) |||
    (s.datacenterID.toNat <<< datacenterBitShift) |||
    (s.machineID.toNat <<< machineBitShift) |||
    s.sequenceNumber.toNat : Nat) : Int)

/-- `NewSnowflakeID`, returning the Go pair `(int64, error)`:
`(0, some e)` on failure, `(id, none)` on success. -/
def NewSnowflakeID (now : Int) (rng : Nat → Nat → Nat) (opts : List GenOption) :
    Int × Option GenError :=
  match applyOptions opts ({} : snowflake) with
  | .error e => (0, some e)
  | .ok s =>
    match getElapsedTimestamp now s with
    | .error e => (0, some e)
    | .ok ts => (packID (randomFill rng { s with timestamp := ts }), none)

/-- Decoder from the round-trip law: `timestamp = id >> 22`. -/
def decodeTimestamp (id : Int) : Int := ((id.toNat >>> 22 : Nat) : Int)

/-- Decoder from the round-trip law: `datacenterID = (id >> 17) & 31`. -/
def decodeDatacenterID (id : Int) : Int := (((id.toNat >>> 17) &&& 31 : Nat) : Int)

/-- Decoder from the round-trip law: `machineID = (id >> 12) & 31`. -/
def decodeMachineID (id : Int) : Int := (((id.toNat >>> 12) &&& 31 : Nat) : Int)

/-- Decoder from the round-trip law: `sequenceNumber = id & 4095`. -/
def decodeSequenceNumber (id : Int) : Int := ((id.toNat &&& 4095 : Nat) : Int)

/-- The 64-bit binary representation of a (nonnegative) id, most significant
bit first, as the digits of Go's `%064b`. -/
def toBits64 (n : Nat) : List Nat :=
  (List.range 64).map (fun i => if n.testBit (63 - i) then 1 else 0)

/-- Range invariant kept by every reachable call state. -/
def fieldsOK (s : snowflake) : Prop :=
  0 ≤ s.datacenterID ∧ s.datacenterID ≤ 31 ∧ 0 ≤ s.machineID ∧ s.machineID ≤ 31 ∧
    0 ≤ s.sequenceNumber ∧ s.sequenceNumber ≤ 4095

/-! ### Helper lemmas -/

lemma lor_eq_add {i : Nat} (a b : Nat) (hb : b < 2 ^ i) : (a * 2 ^ i) ||| b = a * 2 ^ i + b := by
  rw [Nat.mul_comm a (2 ^ i)]
  exact (Nat.mul_add_lt_is_or hb a).symm

lemma pack_nat_eq (T D M Q : Nat) (hD : D < 32) (hM : M < 32) (hQ : Q < 4096) :
    ((T <<< 22) ||| (D <<< 17) ||| (M <<< 12) ||| Q : Nat) =
      T * 2 ^ 22 + D * 2 ^ 17 + M * 2 ^ 12 + Q := by
  rw [Nat.shiftLeft_eq, Nat.shiftLeft_eq, Nat.shiftLeft_eq]
  rw [lor_eq_add T (D * 2 ^ 17) (by omega)]
  have h1 : T * 2 ^ 22 + D * 2 ^ 17 = (T * 2 ^ 5 + D) * 2 ^ 17 := by ring
  rw [h1, lor_eq_add _ (M * 2 ^ 12) (by omega)]
  have h2 : (T * 2 ^ 5 + D) * 2 ^ 17 + M * 2 ^ 12 = (T * 2 ^ 10 + D * 2 ^ 5 + M) * 2 ^ 12 := by
    ring
  rw [h2, lor_eq_add _ Q (by omega)]

lemma decode_nat (T D M Q : Nat) (hD : D < 32) (hM : M < 32) (hQ : Q < 4096) :
    (T * 2 ^ 22 + D * 2 ^ 17 + M * 2 ^ 12 + Q) >>> 22 = T ∧
    ((T * 2 ^ 22 + D * 2 ^ 17 + M * 2 ^ 12 + Q) >>> 17) &&& 31 = D ∧
    ((T * 2 ^ 22 + D * 2 ^ 17 + M * 2 ^ 12 + Q) >>> 12) &&& 31 = M ∧
    (T * 2 ^ 22 + D * 2 ^ 17 + M * 2 ^ 12 + Q) &&& 4095 = Q := by
  have h31 : (31 : Nat) = 2 ^ 5 - 1 := rfl
  have h4095 : (4095 : Nat) = 2 ^ 12 - 1 := rfl
  rw [Nat.shiftRight_eq_div_pow, Nat.shiftRight_eq_div_pow, Nat.shiftRight_eq_div_pow,
    h31, h4095, Nat.and_pow_two_sub_one_eq_mod, Nat.and_pow_two_sub_one_eq_mod,
    Nat.and_pow_two_sub_one_eq_mod]
  refine ⟨?_, ?_, ?_, ?_⟩ <;> omega

lemma timestampBitShift_eq : timestampBitShift = 22 := rfl

lemma datacenterBitShift_eq : datacenterBitShift = 17 := rfl

lemma machineBitShift_eq : machineBitShift = 12 := rfl

lemma packID_eq_arith (s : snowflake) (hT : 0 ≤ s.timestamp)
    (hdc1 : 0 ≤ s.datacenterID) (hdc2 : s.datacenterID ≤ 31)
    (hm1 : 0 ≤ s.machineID) (hm2 : s.machineID ≤ 31)
    (hq1 : 0 ≤ s.sequenceNumber) (hq2 : s.sequenceNumber ≤ 4095) :
    packID s = s.timestamp * 2 ^ 22 + s.datacenterID * 2 ^ 17 +
      s.machineID * 2 ^ 12 + s.sequenceNumber := by
  unfold packID
  rw [timestampBitShift_eq, datacenterBitShift_eq, machineBitShift_eq,
    pack_nat_eq _ _ _ _ (by omega) (by omega) (by omega)]
  push_cast
  omega

lemma decode_packID (s : snowflake) (hT : 0 ≤ s.timestamp)
    (hdc1 : 0 ≤ s.datacenterID) (hdc2 : s.datacenterID ≤ 31)
    (hm1 : 0 ≤ s.machineID) (hm2 : s.machineID ≤ 31)
    (hq1 : 0 ≤ s.sequenceNumber) (hq2 : s.sequenceNumber ≤ 4095) :
    decodeTimestamp (packID s) = s.timestamp ∧
    decodeDatacenterID (packID s) = s.datacenterID ∧
    decodeMachineID (packID s) = s.machineID ∧
    decodeSequenceNumber (packID s) = s.sequenceNumber := by
  unfold packID decodeTimestamp decodeDatacenterID decodeMachineID decodeSequenceNumber
  rw [timestampBitShift_eq, datacenterBitShift_eq, machineBitShift_eq,
    pack_nat_eq _ _ _ _ (by omega) (by omega) (by omega)]
  rw [Int.toNat_natCast]
  obtain ⟨e1, e2, e3, e4⟩ :=
    decode_nat s.timestamp.toNat s.datacenterID.toNat s.machineID.toNat s.sequenceNumber.toNat
      (by omega) (by omega) (by omega)
  rw [e1, e2, e3, e4]
  refine ⟨?_, ?_, ?_, ?_⟩ <;> omega

lemma fieldsOK_default : fieldsOK ({} : snowflake) := by
  unfold fieldsOK
  refine ⟨?_, ?_, ?_, ?_, ?_, ?_⟩ <;> decide

lemma applyOption_fieldsOK {o : GenOption} {s s2 : snowflake} (hs : fieldsOK s)
    (h : applyOption o s = .ok s2) : fieldsOK s2 := by
  obtain ⟨h1, h2, h3, h4, h5, h6⟩ := hs
  cases o <;> simp only [applyOption, datacenterBitRange, machineBitRange,
    sequenceNumBitRange] at h
  case withTimestamp v =>
    cases h
    unfold fieldsOK
    dsimp only
    omega
  case withDatacenterID v =>
    split at h
    · cases h
    · cases h
      unfold fieldsOK
      dsimp only
      rename_i hv
      push_neg at hv
      have : (2 : Int) ^ 5 - 1 = 31 := by norm_num
      omega
  case withMachineID v =>
    split at h
    · cases h
    · cases h
      unfold fieldsOK
      dsimp only
      rename_i hv
      push_neg at hv
      have : (2 : Int) ^ 5 - 1 = 31 := by norm_num
      omega
  case withSequenceNumber v =>
    split at h
    · cases h
    · cases h
      unfold fieldsOK
      dsimp only
      rename_i hv
      push_neg at hv
      have : (2 : Int) ^ 12 - 1 = 4095 := by norm_num
      omega
  case withBaseTime v =>
    cases h
    unfold fieldsOK
    dsimp only
    omega
  case withRandomEnabled =>
    cases h
    unfold fieldsOK
    dsimp only
    omega

lemma applyOptions_fieldsOK {opts : List GenOption} {s s2 : snowflake} (hs : fieldsOK s)
    (h : applyOptions opts s = .ok s2) : fieldsOK s2 := by
  induction opts generalizing s with
  | nil =>
    simp only [applyOptions] at h
    cases h
    exact hs
  | cons o rest ih =>
    simp only [applyOptions] at h
    cases he : applyOption o s with
    | error e => rw [he] at h; cases h
    | ok s1 => rw [he] at h; exact ih (applyOption_fieldsOK hs he) h

lemma elapsedCheck_ok {d ts : Int}
    (h : (if d ≤ 0 then (.error .errInvalidTimestamp : Except GenError Int)
          else if d > 2 ^ timestampBitRange - 1 then .error .errOverLifeTime
          else .ok d) = .ok ts) :
    1 ≤ ts ∧ ts ≤ 2 ^ 41 - 1 := by
  split at h
  · cases h
  · split at h
    · cases h
    · cases h
      rename_i hv1 hv2
      simp only [timestampBitRange] at hv2
      omega

lemma getElapsedTimestamp_ok_bounds {now : Int} {s : snowflake} {ts : Int}
    (h : getElapsedTimestamp now s = .ok ts) : 1 ≤ ts ∧ ts ≤ 2 ^ 41 - 1 := by
  simp only [getElapsedTimestamp] at h
  exact elapsedCheck_ok h

lemma randomFillDatacenter_timestamp (rng : Nat → Nat → Nat) (s : snowflake) :
    (randomFillDatacenter rng s).timestamp = s.timestamp := by
  unfold randomFillDatacenter
  split <;> rfl

lemma randomFillMachine_timestamp (rng : Nat → Nat → Nat) (s : snowflake) :
    (randomFillMachine rng s).timestamp = s.timestamp := by
  unfold randomFillMachine
  split <;> rfl

lemma randomFillSequence_timestamp (rng : Nat → Nat → Nat) (s : snowflake) :
    (randomFillSequence rng s).timestamp = s.timestamp := by
  unfold randomFillSequence
  split <;> rfl

lemma randomFill_timestamp (rng : Nat → Nat → Nat) (s : snowflake) :
    (randomFill rng s).timestamp = s.timestamp := by
  unfold randomFill
  split
  · rw [randomFillSequence_timestamp, randomFillMachine_timestamp,
      randomFillDatacenter_timestamp]
  · rfl

lemma randBound_datacenter_eq : randBound datacenterBitRange = 6 := rfl

lemma randBound_machine_eq : randBound machineBitRange = 6 := rfl

lemma randBound_sequence_eq : randBound sequenceNumBitRange = 13 := rfl

lemma randomFillDatacenter_fieldsOK {rng : Nat → Nat → Nat} {s : snowflake}
    (hrng : ∀ i n, 0 < n → rng i n < n) (hs : fieldsOK s) :
    fieldsOK (randomFillDatacenter rng s) := by
  obtain ⟨h1, h2, h3, h4, h5, h6⟩ := hs
  have hr := hrng 0 6 (by omega)
  unfold randomFillDatacenter
  rw [randBound_datacenter_eq]
  split
  · unfold fieldsOK
    dsimp only
    omega
  · exact ⟨h1, h2, h3, h4, h5, h6⟩

lemma randomFillMachine_fieldsOK {rng : Nat → Nat → Nat} {s : snowflake}
    (hrng : ∀ i n, 0 < n → rng i n < n) (hs : fieldsOK s) :
    fieldsOK (randomFillMachine rng s) := by
  obtain ⟨h1, h2, h3, h4, h5, h6⟩ := hs
  have hr := hrng 1 6 (by omega)
  unfold randomFillMachine
  rw [randBound_machine_eq]
  split
  · unfold fieldsOK
    dsimp only
    omega
  · exact ⟨h1, h2, h3, h4, h5, h6⟩

lemma randomFillSequence_fieldsOK {rng : Nat → Nat → Nat} {s : snowflake}
    (hrng : ∀ i n, 0 < n → rng i n < n) (hs : fieldsOK s) :
    fieldsOK (randomFillSequence rng s) := by
  obtain ⟨h1, h2, h3, h4, h5, h6⟩ := hs
  have hr := hrng 2 13 (by omega)
  unfold randomFillSequence
  rw [randBound_sequence_eq]
  split
  · unfold fieldsOK
    dsimp only
    omega
  · exact ⟨h1, h2, h3, h4, h5, h6⟩

lemma randomFill_fieldsOK {rng : Nat → Nat → Nat} {s : snowflake}
    (hrng : ∀ i n, 0 < n → rng i n < n) (hs : fieldsOK s) : fieldsOK (randomFill rng s) := by
  unfold randomFill
  split
  · exact randomFillSequence_fieldsOK hrng
      (randomFillMachine_fieldsOK hrng (randomFillDatacenter_fieldsOK hrng hs))
  · exact hs

lemma randomFill_not_random {rng : Nat → Nat → Nat} {s : snowflake} (h : s.random = false) :
    randomFill rng s = s := by
  unfold randomFill
  rw [h]
  simp

lemma newSnowflakeID_ok_shape {now : Int} {rng : Nat → Nat → Nat} {opts : List GenOption}
    {id : Int} (h : NewSnowflakeID now rng opts = (id, none)) :
    ∃ s ts, applyOptions opts ({} : snowflake) = .ok s ∧
      getElapsedTimestamp now s = .ok ts ∧
      id = packID (randomFill rng { s with timestamp := ts }) := by
  unfold NewSnowflakeID at h
  cases ha : applyOptions opts ({} : snowflake) with
  | error e => rw [ha] at h; cases h
  | ok s =>
    rw [ha] at h
    dsimp only at h
    cases hg : getElapsedTimestamp now s with
    | error e => rw [hg] at h; cases h
    | ok ts =>
      rw [hg] at h
      dsimp only at h
      cases h
      exact ⟨s, ts, rfl, hg, rfl⟩

lemma newSnowflakeID_error_zero {now : Int} {rng : Nat → Nat → Nat} {opts : List GenOption}
    {id : Int} {e : GenError} (h : NewSnowflakeID now rng opts = (id, some e)) : id = 0 := by
  unfold NewSnowflakeID at h
  cases ha : applyOptions opts ({} : snowflake) with
  | error e2 => rw [ha] at h; cases h; rfl
  | ok s =>
    rw [ha] at h
    dsimp only at h
    cases hg : getElapsedTimestamp now s with
    | error e2 => rw [hg] at h; cases h; rfl
    | ok ts => rw [hg] at h; dsimp only at h; cases h

lemma durationMilliseconds_timeSub_nonpos (a b : Int) :
    (durationMilliseconds (timeSub a b) ≤ 0 ↔ a - b ≤ 0) := by
  unfold timeSub durationMilliseconds maxInt64 minInt64
  dsimp only
  split
  · rename_i hgt
    have : ((9223372036854775807 : Int)).tdiv 1000000 = 9223372036854 := by decide
    rw [this]
    constructor
    · intro hc; omega
    · intro hc; omega
  · split
    · rename_i hgt hlt
      have : ((-9223372036854775808 : Int)).tdiv 1000000 = -9223372036854 := by decide
      rw [this]
      constructor
      · intro hc; omega
      · intro hc; omega
    · rename_i hgt hlt
      rw [Int.mul_tdiv_cancel _ (by norm_num : (1000000 : Int) ≠ 0)]

lemma durationMilliseconds_timeSub_over (a b : Int) :
    (durationMilliseconds (timeSub a b) > 2 ^ timestampBitRange - 1 ↔
      a - b > 2 ^ timestampBitRange - 1) := by
  unfold timeSub durationMilliseconds maxInt64 minInt64 timestampBitRange
  dsimp only
  split
  · rename_i hgt
    have : ((9223372036854775807 : Int)).tdiv 1000000 = 9223372036854 := by decide
    rw [this]
    omega
  · split
    · rename_i hgt hlt
      have : ((-9223372036854775808 : Int)).tdiv 1000000 = -9223372036854 := by decide
      rw [this]
      omega
    · rename_i hgt hlt
      rw [Int.mul_tdiv_cancel _ (by norm_num : (1000000 : Int) ≠ 0)]

lemma getElapsedTimestamp_invalid_iff (now : Int) (s : snowflake) :
    getElapsedTimestamp now s = .error .errInvalidTimestamp ↔
      (if s.timestamp > 0 then s.timestamp else now) -
        (if s.baseTime = goZeroTimeUnixMilli then defaultBaseTime else s.baseTime) ≤ 0 := by
  simp only [getElapsedTimestamp]
  generalize (if s.timestamp > 0 then s.timestamp else now) = A
  generalize (if s.baseTime = goZeroTimeUnixMilli then defaultBaseTime else s.baseTime) = B
  rw [← durationMilliseconds_timeSub_nonpos A B]
  generalize durationMilliseconds (timeSub A B) = d
  split
  · rename_i hle
    exact iff_of_true rfl hle
  · rename_i hle
    split
    · exact iff_of_false (by simp) (by omega)
    · exact iff_of_false (by simp) (by omega)

lemma getElapsedTimestamp_over_iff (now : Int) (s : snowflake) :
    getElapsedTimestamp now s = .error .errOverLifeTime ↔
      (if s.timestamp > 0 then s.timestamp else now) -
        (if s.baseTime = goZeroTimeUnixMilli then defaultBaseTime else s.baseTime) >
        2 ^ 41 - 1 := by
  simp only [getElapsedTimestamp]
  generalize (if s.timestamp > 0 then s.timestamp else now) = A
  generalize (if s.baseTime = goZeroTimeUnixMilli then defaultBaseTime else s.baseTime) = B
  rw [show ((2 : Int) ^ 41 - 1) = 2 ^ timestampBitRange - 1 from rfl,
    ← durationMilliseconds_timeSub_over A B]
  generalize durationMilliseconds (timeSub A B) = d
  split
  · rename_i hle
    refine iff_of_false (by simp) ?_
    simp only [timestampBitRange]
    omega
  · rename_i hle
    split
    · rename_i hgt
      exact iff_of_true rfl hgt
    · rename_i hgt
      exact iff_of_false (by simp) hgt

lemma applyOption_withTimestamp_eq (s : snowflake) (t : Int) :
    applyOption (WithTimestamp t) s = .ok { s with timestamp := t } := rfl

lemma applyOption_withBaseTime_eq (s : snowflake) (b : Int) :
    applyOption (WithBaseTime b) s = .ok { s with baseTime := b } := rfl

lemma applyOption_withRandomEnabled_eq (s : snowflake) :
    applyOption WithRandomEnabled s = .ok { s with random := true } := rfl

lemma applyOption_withDatacenterID_ok (s : snowflake) {v : Int} (h1 : 0 ≤ v) (h2 : v ≤ 31) :
    applyOption (WithDatacenterID v) s = .ok { s with datacenterID := v } := by
  have h : ¬(v < 0 ∨ v > 2 ^ datacenterBitRange - 1) := by
    simp only [datacenterBitRange]
    push_neg
    omega
  simp only [WithDatacenterID, applyOption, if_neg h]

lemma applyOption_withMachineID_ok (s : snowflake) {v : Int} (h1 : 0 ≤ v) (h2 : v ≤ 31) :
    applyOption (WithMachineID v) s = .ok { s with machineID := v } := by
  have h : ¬(v < 0 ∨ v > 2 ^ machineBitRange - 1) := by
    simp only [machineBitRange]
    push_neg
    omega
  simp only [WithMachineID, applyOption, if_neg h]

lemma applyOption_withSequenceNumber_ok (s : snowflake) {v : Int} (h1 : 0 ≤ v) (h2 : v ≤ 4095) :
    applyOption (WithSequenceNumber v) s = .ok { s with sequenceNumber := v } := by
  have h : ¬(v < 0 ∨ v > 2 ^ sequenceNumBitRange - 1) := by
    simp only [sequenceNumBitRange]
    push_neg
    omega
  simp only [WithSequenceNumber, applyOption, if_neg h]

lemma applyOptions_cons_ok {o : GenOption} {s s1 : snowflake} (rest : List GenOption)
    (h : applyOption o s = .ok s1) :
    applyOptions (o :: rest) s = applyOptions rest s1 := by
  simp only [applyOptions, h]

lemma applyOptions_cons_error {o : GenOption} {s : snowflake} {e : GenError}
    (rest : List GenOption) (h : applyOption o s = .error e) :
    applyOptions (o :: rest) s = .error e := by
  simp only [applyOptions, h]

lemma applyOptions_append (l1 l2 : List GenOption) (s : snowflake) :
    applyOptions (l1 ++ l2) s =
      match applyOptions l1 s with
      | .error e => .error e
      | .ok s2 => applyOptions l2 s2 := by
  induction l1 generalizing s with
  | nil => simp only [List.nil_append, applyOptions]
  | cons o rest ih =>
    simp only [List.cons_append, applyOptions]
    cases applyOption o s with
    | error e => rfl
    | ok s1 => exact ih s1

lemma timeSub_exact {a b : Int} (h1 : -9223372036854 ≤ a - b) (h2 : a - b ≤ 9223372036854) :
    timeSub a b = (a - b) * 1000000 := by
  unfold timeSub maxInt64 minInt64
  dsimp only
  rw [if_neg (by omega), if_neg (by omega)]

lemma durationMilliseconds_exact (e : Int) : durationMilliseconds (e * 1000000) = e := by
  unfold durationMilliseconds
  exact Int.mul_tdiv_cancel _ (by norm_num)

lemma getElapsedTimestamp_ok_of {now : Int} {s : snowflake} {ts : Int}
    (hts : s.timestamp = defaultBaseTime + ts) (hbase : s.baseTime = goZeroTimeUnixMilli)
    (h1 : 1 ≤ ts) (h2 : ts ≤ 2 ^ 41 - 1) :
    getElapsedTimestamp now s = .ok ts := by
  have hgt : defaultBaseTime + ts > 0 := by simp only [defaultBaseTime]; omega
  simp only [getElapsedTimestamp, hts, hbase, eq_self_iff_true, if_true, if_pos hgt]
  rw [timeSub_exact (by omega) (by omega), durationMilliseconds_exact]
  rw [show defaultBaseTime + ts - defaultBaseTime = ts from by ring]
  rw [if_neg (by omega), if_neg (by simp only [timestampBitRange]; omega)]

lemma getElapsedTimestamp_ts_nonpos {now t u : Int} (s : snowflake) (ht : t ≤ 0) (hu : u ≤ 0) :
    getElapsedTimestamp now { s with timestamp := t } =
      getElapsedTimestamp now { s with timestamp := u } := by
  simp only [getElapsedTimestamp]
  rw [if_neg (show ¬(t > 0) from by omega), if_neg (show ¬(u > 0) from by omega)]

lemma applyOption_ts_commute (o : GenOption) (s : snowflake) (t : Int) :
    (∃ v, o = .withTimestamp v) ∨
    applyOption o { s with timestamp := t } =
      (applyOption o s).map (fun s2 => { s2 with timestamp := t }) := by
  cases o with
  | withTimestamp v => exact Or.inl ⟨v, rfl⟩
  | withDatacenterID v =>
    right
    simp only [applyOption]
    split <;> rfl
  | withMachineID v =>
    right
    simp only [applyOption]
    split <;> rfl
  | withSequenceNumber v =>
    right
    simp only [applyOption]
    split <;> rfl
  | withBaseTime v => exact Or.inr rfl
  | withRandomEnabled => exact Or.inr rfl

lemma applyOptions_ts_indep (rest : List GenOption) :
    ∀ (s : snowflake) (t u : Int),
      (applyOptions rest { s with timestamp := t } =
        applyOptions rest { s with timestamp := u }) ∨
      (∃ s2 : snowflake,
        applyOptions rest { s with timestamp := t } = .ok { s2 with timestamp := t } ∧
        applyOptions rest { s with timestamp := u } = .ok { s2 with timestamp := u }) := by
  induction rest with
  | nil =>
    intro s t u
    right
    exact ⟨s, rfl, rfl⟩
  | cons o rest ih =>
    intro s t u
    rcases applyOption_ts_commute o s t with ⟨v, rfl⟩ | hct
    · left
      rfl
    · have hcu := applyOption_ts_commute o s u
      rcases hcu with ⟨v, rfl⟩ | hcu
      · left
        rfl
      · cases he : applyOption o s with
        | error e =>
          rw [he] at hct hcu
          left
          rw [applyOptions_cons_error rest hct, applyOptions_cons_error rest hcu]
        | ok s1 =>
          rw [he] at hct hcu
          rw [applyOptions_cons_ok rest hct, applyOptions_cons_ok rest hcu]
          exact ih s1 t u

lemma applyOption_withDatacenterID_error (s : snowflake) {v : Int}
    (h : v < 0 ∨ v > 2 ^ datacenterBitRange - 1) :
    applyOption (WithDatacenterID v) s = .error .errInvalidDatacenterID := by
  simp only [WithDatacenterID, applyOption, if_pos h]

lemma applyOption_withMachineID_error (s : snowflake) {v : Int}
    (h : v < 0 ∨ v > 2 ^ machineBitRange - 1) :
    applyOption (WithMachineID v) s = .error .errInvalidMachineID := by
  simp only [WithMachineID, applyOption, if_pos h]

lemma applyOption_withSequenceNumber_error (s : snowflake) {v : Int}
    (h : v < 0 ∨ v > 2 ^ sequenceNumBitRange - 1) :
    applyOption (WithSequenceNumber v) s = .error .errInvalidSequenceNumber := by
  simp only [WithSequenceNumber, applyOption, if_pos h]

/-! ### Claim theorems -/

/-- C1: Calling NewSnowflakeID with an explicit timestamp of 2024-02-01T00:00:00Z
(UnixMilli 1706745600000), no base-time override (so the default epoch
2024-01-01T00:00:00Z applies), datacenterID 31, machineID 15 and sequence
number 1 succeeds and returns exactly the id 11234023837724673, whose 64-bit
binary representation is
0000000000100111111010010100100100000000001111101111000000000001; this holds
for every sampled current time and every random source, neither of which is
consulted. -/
theorem newSnowflakeID_c1_test_vector : ∀ (now : Int) (rng : Nat → Nat → Nat),
    NewSnowflakeID now rng [WithTimestamp 1706745600000, WithDatacenterID 31,
      WithMachineID 15, WithSequenceNumber 1] = (11234023837724673, none) ∧
    toBits64 11234023837724673 =
      [0, 0, 0, 0, 0, 0, 0, 0, 0, 0, 1, 0, 0, 1, 1, 1, 1, 1, 1, 0, 1, 0, 0, 1, 0, 1, 0, 0,
       1, 0, 0, 1, 0, 0, 0, 0, 0, 0, 0, 0, 0, 0, 1, 1, 1, 1, 1, 0, 1, 1, 1, 1, 0, 0, 0, 0,
       0, 0, 0, 0, 0, 0, 0, 1] := by
  intro now rng
  have h1 : applyOptions [WithTimestamp 1706745600000, WithDatacenterID 31,
      WithMachineID 15, WithSequenceNumber 1] ({} : snowflake) =
      .ok ⟨1706745600000, 31, 15, 1, goZeroTimeUnixMilli, false⟩ := by
    rw [applyOptions_cons_ok _ (applyOption_withTimestamp_eq _ _),
      applyOptions_cons_ok _ (applyOption_withDatacenterID_ok _ (by norm_num) (by norm_num)),
      applyOptions_cons_ok _ (applyOption_withMachineID_ok _ (by norm_num) (by norm_num)),
      applyOptions_cons_ok _ (applyOption_withSequenceNumber_ok _ (by norm_num) (by norm_num))]
    rfl
  have h2 : getElapsedTimestamp now ⟨1706745600000, 31, 15, 1, goZeroTimeUnixMilli, false⟩ =
      .ok 2678400000 :=
    getElapsedTimestamp_ok_of (by norm_num [defaultBaseTime]) rfl (by norm_num) (by norm_num)
  refine ⟨?_, by decide⟩
  unfold NewSnowflakeID
  rw [h1]
  dsimp only
  rw [h2]
  dsimp only
  rw [randomFill_not_random rfl]
  norm_num
  decide

/-- C3: each range-setting option fails with its own distinguishable error kind
exactly when its argument is outside the field's bit-width range, and succeeds
(setting the field) otherwise; the three error kinds are pairwise distinct,
values exactly at the maximum are valid, and on any failure NewSnowflakeID
returns the zero id. -/
theorem withOption_c3_range_validation (s : snowflake) (v : Int) :
    (applyOption (WithDatacenterID v) s = .error .errInvalidDatacenterID ↔ v < 0 ∨ v > 31) ∧
    (¬(v < 0 ∨ v > 31) → applyOption (WithDatacenterID v) s = .ok { s with datacenterID := v }) ∧
    (applyOption (WithMachineID v) s = .error .errInvalidMachineID ↔ v < 0 ∨ v > 31) ∧
    (¬(v < 0 ∨ v > 31) → applyOption (WithMachineID v) s = .ok { s with machineID := v }) ∧
    (applyOption (WithSequenceNumber v) s = .error .errInvalidSequenceNumber ↔
      v < 0 ∨ v > 4095) ∧
    (¬(v < 0 ∨ v > 4095) →
      applyOption (WithSequenceNumber v) s = .ok { s with sequenceNumber := v }) ∧
    GenError.errInvalidDatacenterID ≠ GenError.errInvalidMachineID ∧
    GenError.errInvalidDatacenterID ≠ GenError.errInvalidSequenceNumber ∧
    GenError.errInvalidMachineID ≠ GenError.errInvalidSequenceNumber ∧
    (∀ (now : Int) (rng : Nat → Nat → Nat) (opts : List GenOption) (id : Int) (e : GenError),
      NewSnowflakeID now rng opts = (id, some e) → id = 0) := by
  have hdc : ((2 : Int) ^ datacenterBitRange - 1) = 31 := by norm_num [datacenterBitRange]
  have hm : ((2 : Int) ^ machineBitRange - 1) = 31 := by norm_num [machineBitRange]
  have hq : ((2 : Int) ^ sequenceNumBitRange - 1) = 4095 := by norm_num [sequenceNumBitRange]
  refine ⟨?_, ?_, ?_, ?_, ?_, ?_, by decide, by decide, by decide,
    fun _ _ _ _ _ h => newSnowflakeID_error_zero h⟩
  · simp only [WithDatacenterID, applyOption, hdc]
    split
    · rename_i hcond
      exact iff_of_true rfl hcond
    · rename_i hcond
      exact iff_of_false (by simp) hcond
  · intro hcond
    simp only [WithDatacenterID, applyOption, hdc, if_neg hcond]
  · simp only [WithMachineID, applyOption, hm]
    split
    · rename_i hcond
      exact iff_of_true rfl hcond
    · rename_i hcond
      exact iff_of_false (by simp) hcond
  · intro hcond
    simp only [WithMachineID, applyOption, hm, if_neg hcond]
  · simp only [WithSequenceNumber, applyOption, hq]
    split
    · rename_i hcond
      exact iff_of_true rfl hcond
    · rename_i hcond
      exact iff_of_false (by simp) hcond
  · intro hcond
    simp only [WithSequenceNumber, applyOption, hq, if_neg hcond]

/-- C3 witness: at the concrete boundary inputs, 32 is rejected with the
datacenter error, 31 and 4095 are accepted, 4096 is rejected, and a failing
call returns the zero id. -/
theorem withOption_c3_witness :
    applyOption (WithDatacenterID 32) {} = .error .errInvalidDatacenterID ∧
    applyOption (WithDatacenterID 31) {} = .ok { ({} : snowflake) with datacenterID := 31 } ∧
    applyOption (WithSequenceNumber 4095) {} =
      .ok { ({} : snowflake) with sequenceNumber := 4095 } ∧
    NewSnowflakeID 0 (fun _ _ => 0) [WithDatacenterID 32] =
      (0, some .errInvalidDatacenterID) := by
  refine ⟨?_, ?_, ?_, by decide⟩
  · exact (withOption_c3_range_validation {} 32).1.mpr (by norm_num)
  · exact (withOption_c3_range_validation {} 31).2.1 (by norm_num)
  · exact (withOption_c3_range_validation {} 4095).2.2.2.2.2.1 (by norm_num)

/-- C4: once the options have been applied successfully, with elapsed
milliseconds computed as the effective timestamp (override if positive, else
the sampled current time) minus the effective epoch (the override if set, else
the default epoch 2024-01-01T00:00:00Z), NewSnowflakeID fails with the
InvalidTimestamp error exactly when the elapsed value is ≤ 0 and with the
OverLifetime error exactly when it exceeds 2^41 − 1; the two error kinds are
distinct and on either failure the returned id is 0. -/
theorem newSnowflakeID_c4_timestamp_errors (now : Int) (rng : Nat → Nat → Nat)
    (opts : List GenOption) (s : snowflake)
    (h : applyOptions opts ({} : snowflake) = .ok s) :
    (NewSnowflakeID now rng opts = (0, some .errInvalidTimestamp) ↔
      (if s.timestamp > 0 then s.timestamp else now) -
        (if s.baseTime = goZeroTimeUnixMilli then defaultBaseTime else s.baseTime) ≤ 0) ∧
    (NewSnowflakeID now rng opts = (0, some .errOverLifeTime) ↔
      (if s.timestamp > 0 then s.timestamp else now) -
        (if s.baseTime = goZeroTimeUnixMilli then defaultBaseTime else s.baseTime) >
        2 ^ 41 - 1) ∧
    GenError.errInvalidTimestamp ≠ GenError.errOverLifeTime := by
  have hrun : ∀ e : GenError, NewSnowflakeID now rng opts = (0, some e) ↔
      getElapsedTimestamp now s = .error e := by
    intro e
    unfold NewSnowflakeID
    rw [h]
    dsimp only
    cases hg : getElapsedTimestamp now s with
    | error e2 =>
      dsimp only
      constructor
      · intro hp
        injection hp with hp1 hp2
        injection hp2 with hp3
        rw [hp3]
      · intro hp
        injection hp with hp1
        rw [hp1]
    | ok ts =>
      dsimp only
      constructor
      · intro hp
        injection hp with hp1 hp2
        cases hp2
      · intro hp
        cases hp
  refine ⟨?_, ?_, by decide⟩
  · rw [hrun, getElapsedTimestamp_invalid_iff]
  · rw [hrun, getElapsedTimestamp_over_iff]

/-- C4 witness: with a 2020 timestamp against a 2021 epoch the call fails with
InvalidTimestamp and zero id, and with a 2050 timestamp against a 1980 epoch it
fails with OverLifetime and zero id (the inputs of the package's own tests). -/
theorem newSnowflakeID_c4_witness :
    NewSnowflakeID 0 (fun _ _ => 0)
      [WithTimestamp 1577836800000, WithBaseTime 1609459200000] =
      (0, some .errInvalidTimestamp) ∧
    NewSnowflakeID 0 (fun _ _ => 0)
      [WithTimestamp 2524608000000, WithBaseTime 315532800000] =
      (0, some .errOverLifeTime) := by
  constructor
  · exact (newSnowflakeID_c4_timestamp_errors 0 (fun _ _ => 0)
      [WithTimestamp 1577836800000, WithBaseTime 1609459200000]
      ⟨1577836800000, 0, 0, 0, 1609459200000, false⟩ rfl).1.mpr (by decide)
  · exact (newSnowflakeID_c4_timestamp_errors 0 (fun _ _ => 0)
      [WithTimestamp 2524608000000, WithBaseTime 315532800000]
      ⟨2524608000000, 0, 0, 0, 315532800000, false⟩ rfl).2.1.mpr (by decide)

/-- C5: for every datacenterID in [0,31], machineID in [0,31], sequence number
in [0,4095] and elapsed timestamp in [1, 2^41 − 1], the id packed by
NewSnowflakeID (here produced by a call whose explicit timestamp sits exactly
ts milliseconds after the default epoch) decodes back to exactly those four
field values under the inverse shift-and-mask operations. -/
theorem newSnowflakeID_c5_roundtrip (ts dc m q : Int)
    (hts1 : 1 ≤ ts) (hts2 : ts ≤ 2 ^ 41 - 1)
    (hdc1 : 0 ≤ dc) (hdc2 : dc ≤ 31) (hm1 : 0 ≤ m) (hm2 : m ≤ 31)
    (hq1 : 0 ≤ q) (hq2 : q ≤ 4095) (now : Int) (rng : Nat → Nat → Nat) :
    NewSnowflakeID now rng [WithTimestamp (defaultBaseTime + ts), WithDatacenterID dc,
      WithMachineID m, WithSequenceNumber q] =
      (packID ⟨ts, dc, m, q, goZeroTimeUnixMilli, false⟩, none) ∧
    decodeTimestamp (packID ⟨ts, dc, m, q, goZeroTimeUnixMilli, false⟩) = ts ∧
    decodeDatacenterID (packID ⟨ts, dc, m, q, goZeroTimeUnixMilli, false⟩) = dc ∧
    decodeMachineID (packID ⟨ts, dc, m, q, goZeroTimeUnixMilli, false⟩) = m ∧
    decodeSequenceNumber (packID ⟨ts, dc, m, q, goZeroTimeUnixMilli, false⟩) = q := by
  have h1 : applyOptions [WithTimestamp (defaultBaseTime + ts), WithDatacenterID dc,
      WithMachineID m, WithSequenceNumber q] ({} : snowflake) =
      .ok ⟨defaultBaseTime + ts, dc, m, q, goZeroTimeUnixMilli, false⟩ := by
    rw [applyOptions_cons_ok _ (applyOption_withTimestamp_eq _ _),
      applyOptions_cons_ok _ (applyOption_withDatacenterID_ok _ hdc1 hdc2),
      applyOptions_cons_ok _ (applyOption_withMachineID_ok _ hm1 hm2),
      applyOptions_cons_ok _ (applyOption_withSequenceNumber_ok _ hq1 hq2)]
    rfl
  have h2 : getElapsedTimestamp now
      ⟨defaultBaseTime + ts, dc, m, q, goZeroTimeUnixMilli, false⟩ = .ok ts :=
    getElapsedTimestamp_ok_of rfl rfl hts1 hts2
  refine ⟨?_, ?_⟩
  · unfold NewSnowflakeID
    rw [h1]
    dsimp only
    rw [h2]
    dsimp only
    rw [randomFill_not_random rfl]
  · exact decode_packID ⟨ts, dc, m, q, goZeroTimeUnixMilli, false⟩
      (show (0 : Int) ≤ ts by omega) hdc1 hdc2 hm1 hm2 hq1 hq2

/-- C5 witness: the round trip at the concrete input ts = 2678400000, dc = 31,
m = 15, q = 1 (the test vector of the package). -/
theorem newSnowflakeID_c5_witness :
    NewSnowflakeID 0 (fun _ _ => 0) [WithTimestamp (defaultBaseTime + 2678400000),
      WithDatacenterID 31, WithMachineID 15, WithSequenceNumber 1] =
      (packID ⟨2678400000, 31, 15, 1, goZeroTimeUnixMilli, false⟩, none) ∧
    decodeTimestamp (packID ⟨2678400000, 31, 15, 1, goZeroTimeUnixMilli, false⟩) =
      2678400000 ∧
    decodeDatacenterID (packID ⟨2678400000, 31, 15, 1, goZeroTimeUnixMilli, false⟩) = 31 ∧
    decodeMachineID (packID ⟨2678400000, 31, 15, 1, goZeroTimeUnixMilli, false⟩) = 15 ∧
    decodeSequenceNumber (packID ⟨2678400000, 31, 15, 1, goZeroTimeUnixMilli, false⟩) = 1 :=
  newSnowflakeID_c5_roundtrip 2678400000 31 15 1 (by norm_num) (by norm_num) (by norm_num)
    (by norm_num) (by norm_num) (by norm_num) (by norm_num) (by norm_num) 0 (fun _ _ => 0)

/-- C6: every id returned by a successful NewSnowflakeID call is strictly
positive and at most 2^63 − 1, i.e. the most significant (sign) bit of the
64-bit value is 0; the hypothesis on rng is Go's guarantee that rand.Intn n
returns a value in [0, n). -/
theorem newSnowflakeID_c6_sign_bit (now : Int) (rng : Nat → Nat → Nat)
    (opts : List GenOption) (id : Int)
    (hrng : ∀ i n, 0 < n → rng i n < n)
    (h : NewSnowflakeID now rng opts = (id, none)) :
    0 < id ∧ id ≤ 2 ^ 63 - 1 := by
  obtain ⟨s, ts, ha, hg, hid⟩ := newSnowflakeID_ok_shape h
  obtain ⟨hts1, hts2⟩ := getElapsedTimestamp_ok_bounds hg
  have hok : fieldsOK { s with timestamp := ts } := by
    have := applyOptions_fieldsOK fieldsOK_default ha
    obtain ⟨a1, a2, a3, a4, a5, a6⟩ := this
    exact ⟨a1, a2, a3, a4, a5, a6⟩
  have hfill := randomFill_fieldsOK hrng hok
  obtain ⟨b1, b2, b3, b4, b5, b6⟩ := hfill
  have hfts : (randomFill rng { s with timestamp := ts }).timestamp = ts :=
    randomFill_timestamp rng _
  rw [hid, packID_eq_arith _ (by omega) b1 b2 b3 b4 b5 b6, hfts]
  omega

/-- C6 witness: the success bound applied at the concrete test-vector call. -/
theorem newSnowflakeID_c6_witness :
    0 < (11234023837724673 : Int) ∧ (11234023837724673 : Int) ≤ 2 ^ 63 - 1 :=
  newSnowflakeID_c6_sign_bit 0 (fun _ _ => 0)
    [WithTimestamp 1706745600000, WithDatacenterID 31, WithMachineID 15, WithSequenceNumber 1]
    11234023837724673 (fun _ n h => h) (by decide)

/-- C7: options are applied strictly in the order supplied; the first option
that fails aborts the call with that option's error before clock resolution
runs (the result does not depend on the sampled time, the random source, or
the remaining options), and when the same field is set twice the later option
takes effect. -/
theorem newSnowflakeID_c7_option_order (now : Int) (rng : Nat → Nat → Nat)
    (opts1 opts2 : List GenOption) (o : GenOption) (s : snowflake) (e : GenError)
    (h1 : applyOptions opts1 ({} : snowflake) = .ok s)
    (h2 : applyOption o s = .error e) :
    NewSnowflakeID now rng (opts1 ++ o :: opts2) = (0, some e) ∧
    (∀ v w : Int, 0 ≤ v → v ≤ 31 → 0 ≤ w → w ≤ 31 →
      applyOptions [WithDatacenterID v, WithDatacenterID w] s =
        .ok { s with datacenterID := w } ∧
      applyOptions [WithMachineID v, WithMachineID w] s = .ok { s with machineID := w }) ∧
    (∀ v w : Int, 0 ≤ v → v ≤ 4095 → 0 ≤ w → w ≤ 4095 →
      applyOptions [WithSequenceNumber v, WithSequenceNumber w] s =
        .ok { s with sequenceNumber := w }) := by
  refine ⟨?_, ?_, ?_⟩
  · unfold NewSnowflakeID
    rw [applyOptions_append, h1]
    dsimp only
    rw [applyOptions_cons_error _ h2]
  · intro v w hv1 hv2 hw1 hw2
    constructor
    · rw [applyOptions_cons_ok _ (applyOption_withDatacenterID_ok _ hv1 hv2),
        applyOptions_cons_ok _ (applyOption_withDatacenterID_ok _ hw1 hw2)]
      cases s
      rfl
    · rw [applyOptions_cons_ok _ (applyOption_withMachineID_ok _ hv1 hv2),
        applyOptions_cons_ok _ (applyOption_withMachineID_ok _ hw1 hw2)]
      cases s
      rfl
  · intro v w hv1 hv2 hw1 hw2
    rw [applyOptions_cons_ok _ (applyOption_withSequenceNumber_ok _ hv1 hv2),
      applyOptions_cons_ok _ (applyOption_withSequenceNumber_ok _ hw1 hw2)]
    cases s
    rfl

/-- C7 witness: a failing second option (machine ID 32) aborts the call with
the machine error even though a further option follows, and setting the
datacenter ID twice keeps the later value. -/
theorem newSnowflakeID_c7_witness :
    NewSnowflakeID 0 (fun _ _ => 0)
      ([WithDatacenterID 3] ++ WithMachineID 32 :: [WithSequenceNumber 7]) =
      (0, some .errInvalidMachineID) ∧
    applyOptions [WithDatacenterID 1, WithDatacenterID 2]
      { ({} : snowflake) with datacenterID := 3 } =
      .ok { ({} : snowflake) with datacenterID := 2 } := by
  have h := newSnowflakeID_c7_option_order 0 (fun _ _ => 0) [WithDatacenterID 3]
    [WithSequenceNumber 7] (WithMachineID 32) { ({} : snowflake) with datacenterID := 3 }
    .errInvalidMachineID rfl
    (applyOption_withMachineID_error _ (by norm_num [machineBitRange]))
  exact ⟨h.1, ((h.2.1 1 2 (by norm_num) (by norm_num) (by norm_num) (by norm_num)).1)⟩

lemma newSnowflakeID_random_run {now : Int} {rng : Nat → Nat → Nat} {id : Int}
    (h : NewSnowflakeID now rng [WithRandomEnabled] = (id, none)) :
    ∃ ts, getElapsedTimestamp now ⟨0, 0, 0, 0, goZeroTimeUnixMilli, true⟩ = .ok ts ∧
      id = packID ⟨ts, ((rng 0 6 : Nat) : Int), ((rng 1 6 : Nat) : Int),
        ((rng 2 13 : Nat) : Int), goZeroTimeUnixMilli, true⟩ := by
  obtain ⟨s, ts, ha, hg, hid⟩ := newSnowflakeID_ok_shape h
  have hs : s = ⟨0, 0, 0, 0, goZeroTimeUnixMilli, true⟩ := by
    have : applyOptions [WithRandomEnabled] ({} : snowflake) =
        .ok ⟨0, 0, 0, 0, goZeroTimeUnixMilli, true⟩ := rfl
    rw [this] at ha
    injection ha with ha2
    exact ha2.symm
  subst hs
  exact ⟨ts, hg, hid⟩

/-- C8: with randomization enabled and all three of datacenterID, machineID and
sequenceNumber left unset, every generated id has its datacenter sub-field in
[0, 31], its machine sub-field in [0, 31] and its sequence sub-field in
[0, 4095], for every outcome of the random source allowed by rand.Intn's
contract. -/
theorem newSnowflakeID_c8_random_in_range (now : Int) (rng : Nat → Nat → Nat) (id : Int)
    (hrng : ∀ i n, 0 < n → rng i n < n)
    (h : NewSnowflakeID now rng [WithRandomEnabled] = (id, none)) :
    0 ≤ decodeDatacenterID id ∧ decodeDatacenterID id ≤ 31 ∧
    0 ≤ decodeMachineID id ∧ decodeMachineID id ≤ 31 ∧
    0 ≤ decodeSequenceNumber id ∧ decodeSequenceNumber id ≤ 4095 := by
  obtain ⟨ts, hg, hid⟩ := newSnowflakeID_random_run h
  obtain ⟨hts1, hts2⟩ := getElapsedTimestamp_ok_bounds hg
  have hr1 := hrng 0 6 (by omega)
  have hr2 := hrng 1 6 (by omega)
  have hr3 := hrng 2 13 (by omega)
  obtain ⟨d1, d2, d3, d4⟩ := decode_packID
    ⟨ts, ((rng 0 6 : Nat) : Int), ((rng 1 6 : Nat) : Int), ((rng 2 13 : Nat) : Int),
      goZeroTimeUnixMilli, true⟩
    (show (0 : Int) ≤ ts by omega)
    (show (0 : Int) ≤ ((rng 0 6 : Nat) : Int) by positivity)
    (show ((rng 0 6 : Nat) : Int) ≤ 31 by omega)
    (show (0 : Int) ≤ ((rng 1 6 : Nat) : Int) by positivity)
    (show ((rng 1 6 : Nat) : Int) ≤ 31 by omega)
    (show (0 : Int) ≤ ((rng 2 13 : Nat) : Int) by positivity)
    (show ((rng 2 13 : Nat) : Int) ≤ 4095 by omega)
  rw [hid, d2, d3, d4]
  dsimp only
  omega

/-- C8 witness: the bounds applied to a concrete successful randomized call
(current time one second after the default epoch, random source constantly 0). -/
theorem newSnowflakeID_c8_witness :
    0 ≤ decodeDatacenterID 4194304000 ∧ decodeDatacenterID 4194304000 ≤ 31 ∧
    0 ≤ decodeMachineID 4194304000 ∧ decodeMachineID 4194304000 ≤ 31 ∧
    0 ≤ decodeSequenceNumber 4194304000 ∧ decodeSequenceNumber 4194304000 ≤ 4095 :=
  newSnowflakeID_c8_random_in_range 1704067201000 (fun _ _ => 0) 4194304000
    (fun _ n h => h) (by decide)

/-- C2: the claim that the randomizer draws from the full range [0, 2^bits − 1]
of each field fails on the code: because Go's `^` in `2 ^ bits - 1` is bitwise
XOR, the bounds handed to rand.Intn are 6, 6 and 13 (not 32, 32 and 4096), so
under rand.Intn's contract every randomized id has datacenter and machine
sub-fields at most 5 and sequence sub-field at most 12 — the documented
ceilings 31, 31 and 4095 are unreachable. -/
theorem newSnowflakeID_c2_random_range_defect :
    randBound datacenterBitRange = 6 ∧ randBound machineBitRange = 6 ∧
    randBound sequenceNumBitRange = 13 ∧
    ∀ (now : Int) (rng : Nat → Nat → Nat) (id : Int),
      (∀ i n, 0 < n → rng i n < n) →
      NewSnowflakeID now rng [WithRandomEnabled] = (id, none) →
      decodeDatacenterID id ≤ 5 ∧ decodeMachineID id ≤ 5 ∧ decodeSequenceNumber id ≤ 12 := by
  refine ⟨rfl, rfl, rfl, ?_⟩
  intro now rng id hrng h
  obtain ⟨ts, hg, hid⟩ := newSnowflakeID_random_run h
  obtain ⟨hts1, hts2⟩ := getElapsedTimestamp_ok_bounds hg
  have hr1 := hrng 0 6 (by omega)
  have hr2 := hrng 1 6 (by omega)
  have hr3 := hrng 2 13 (by omega)
  obtain ⟨d1, d2, d3, d4⟩ := decode_packID
    ⟨ts, ((rng 0 6 : Nat) : Int), ((rng 1 6 : Nat) : Int), ((rng 2 13 : Nat) : Int),
      goZeroTimeUnixMilli, true⟩
    (show (0 : Int) ≤ ts by omega)
    (show (0 : Int) ≤ ((rng 0 6 : Nat) : Int) by omega)
    (show ((rng 0 6 : Nat) : Int) ≤ 31 by omega)
    (show (0 : Int) ≤ ((rng 1 6 : Nat) : Int) by omega)
    (show ((rng 1 6 : Nat) : Int) ≤ 31 by omega)
    (show (0 : Int) ≤ ((rng 2 13 : Nat) : Int) by omega)
    (show ((rng 2 13 : Nat) : Int) ≤ 4095 by omega)
  rw [hid, d2, d3, d4]
  dsimp only
  omega

/-- C2 witness: the datacenter bound passed to rand.Intn evaluates to 6, and
the sub-field bounds hold on a concrete randomized call whose random source
constantly returns its maximum admissible value 5 (so the datacenter sub-field
is 5, the largest value the code can ever produce, well below the documented
ceiling 31). -/
theorem newSnowflakeID_c2_witness :
    randBound datacenterBitRange = 6 ∧
    decodeDatacenterID 4194979852 ≤ 5 ∧ decodeMachineID 4194979852 ≤ 5 ∧
    decodeSequenceNumber 4194979852 ≤ 12 :=
  ⟨newSnowflakeID_c2_random_range_defect.1,
    newSnowflakeID_c2_random_range_defect.2.2.2 1704067201000
      (fun _ n => n - 1) 4194979852
      (fun _ n h => by dsimp only; omega) (by decide)⟩

/-- C9: if WithTimestamp is given a time whose Unix-millisecond value is ≤ 0
(at or before 1970-01-01T00:00:00Z), the override is silently ignored and the
call behaves exactly as if the option had not been supplied, using the sampled
current time instead. -/
theorem newSnowflakeID_c9_nonpositive_override (now : Int) (rng : Nat → Nat → Nat)
    (t : Int) (rest : List GenOption) (ht : t ≤ 0) :
    NewSnowflakeID now rng (WithTimestamp t :: rest) = NewSnowflakeID now rng rest := by
  unfold NewSnowflakeID
  rw [applyOptions_cons_ok rest (applyOption_withTimestamp_eq _ _)]
  rcases applyOptions_ts_indep rest ({} : snowflake) t 0 with heq | ⟨s2, h1, h2⟩
  · have heq2 : applyOptions rest { ({} : snowflake) with timestamp := t } =
        applyOptions rest ({} : snowflake) := heq
    rw [heq2]
  · have h2b : applyOptions rest ({} : snowflake) = .ok { s2 with timestamp := 0 } := h2
    rw [h1, h2b]
    dsimp only
    rw [getElapsedTimestamp_ts_nonpos s2 ht (le_refl 0)]

/-- C9 witness: a 1970-01-01 override (UnixMilli 0) and a negative override are
ignored: the call equals the override-free call at the same sampled time. -/
theorem newSnowflakeID_c9_witness :
    NewSnowflakeID 1704067201000 (fun _ _ => 0) (WithTimestamp 0 :: [WithDatacenterID 3]) =
      NewSnowflakeID 1704067201000 (fun _ _ => 0) [WithDatacenterID 3] ∧
    NewSnowflakeID 1704067201000 (fun _ _ => 0) (WithTimestamp (-86400000) :: []) =
      NewSnowflakeID 1704067201000 (fun _ _ => 0) [] :=
  ⟨newSnowflakeID_c9_nonpositive_override 1704067201000 (fun _ _ => 0) 0
      [WithDatacenterID 3] (by norm_num),
    newSnowflakeID_c9_nonpositive_override 1704067201000 (fun _ _ => 0) (-86400000)
      [] (by norm_num)⟩

/-- C10: a field explicitly set to 0 via WithDatacenterID 0, WithMachineID 0 or
WithSequenceNumber 0 is indistinguishable from an unset field: the call result
is identical with or without the three explicit-zero options, and with
randomization enabled a zero datacenter field is overwritten with the random
draw rather than kept at the caller-chosen 0. -/
theorem newSnowflakeID_c10_zero_is_unset (now : Int) (rng : Nat → Nat → Nat) (t : Int) :
    NewSnowflakeID now rng [WithTimestamp t, WithDatacenterID 0, WithMachineID 0,
      WithSequenceNumber 0, WithRandomEnabled] =
      NewSnowflakeID now rng [WithTimestamp t, WithRandomEnabled] ∧
    (∀ s : snowflake, s.random = true → s.datacenterID = 0 →
      (randomFill rng s).datacenterID =
        ((rng 0 (randBound datacenterBitRange) : Nat) : Int)) := by
  constructor
  · rfl
  · intro s hr hdc
    have hseq : ∀ s2 : snowflake, (randomFillSequence rng s2).datacenterID = s2.datacenterID := by
      intro s2
      unfold randomFillSequence
      split <;> rfl
    have hmach : ∀ s2 : snowflake, (randomFillMachine rng s2).datacenterID = s2.datacenterID := by
      intro s2
      unfold randomFillMachine
      split <;> rfl
    unfold randomFill
    rw [hr, if_pos rfl, hseq, hmach]
    unfold randomFillDatacenter
    rw [if_pos hdc]

/-- C10 witness: at a concrete state with randomization on and datacenter 0,
the filled datacenter field is the random draw, and the two concrete calls
(with and without explicit zero options) agree. -/
theorem newSnowflakeID_c10_witness :
    NewSnowflakeID 0 (fun _ _ => 3) [WithTimestamp 1706745600000, WithDatacenterID 0,
      WithMachineID 0, WithSequenceNumber 0, WithRandomEnabled] =
      NewSnowflakeID 0 (fun _ _ => 3) [WithTimestamp 1706745600000, WithRandomEnabled] ∧
    (randomFill (fun _ _ => 3) ⟨5, 0, 0, 0, goZeroTimeUnixMilli, true⟩).datacenterID = 3 :=
  ⟨(newSnowflakeID_c10_zero_is_unset 0 (fun _ _ => 3) 1706745600000).1,
    (newSnowflakeID_c10_zero_is_unset 0 (fun _ _ => 3) 1706745600000).2
      ⟨5, 0, 0, 0, goZeroTimeUnixMilli, true⟩ rfl rfl⟩
